import Mathlib

/-!
Shallow embedding of `src/avs_c_api_loader.cpp` (avisynthplus-c-api-dynamic-loader).

The loader is a process-wide singleton with an atomic reference count.  We model
the externally visible world (`Host`): whether the shared library can be opened,
which symbol names resolve to which addresses, the host's interface/bugfix
version numbers as reported by `avs_get_env_property`, and the return value of
`avs_check_version`.  Machine pointers are modelled as `Option Nat` (with `none`
as the null pointer); the function table `api_pointers_` is a map from symbol
name to slot value.  Every platform-shim call (`avs_open_library`,
`avs_close_library`, `avs_get_proc_address`) is recorded in an event trace so
that "does not re-open / re-resolve" properties are statable.

The known-function schema (the `avs_c_api_functions.inc` master list) is a
parameter `schema : List String`: the C++ builds `pointer_offset_map` from that
include file, and membership in the map is exactly membership in the list.
-/

namespace AvsLoader

/-- Address used for the single library handle (any fixed non-null value). -/
def libHandleAddr : Nat := 1

/-- Address of `instance_.api_pointers_`: the one shared table in the process. -/
def apiTableAddr : Nat := 2

/-- Calls made to the platform library shim. -/
inductive Event where
  | openLib : Event
  | closeLib : Event
  | resolve (name : String) : Event
deriving DecidableEq, Repr

/-- The world outside the loader: the OS dynamic loader and the Avisynth host. -/
structure Host where
  libAvailable : Bool
  symbolAddr : String → Option Nat
  hostMajor : Int
  hostBugfix : Int
  checkVersionRet : Int → Int

/-- The all-null function table (`api_pointers_ = {}`). -/
def emptyTable : String → Option Nat := fun _ => none

/-- The mutable state of the `avisynth_c_api_loader` singleton, together with
the process-wide `ref_count_` and the global accessor `g_avs_api`. -/
@[ext]
structure LoaderState where
  refCount : Int
  libraryHandle : Option Nat
  apiPointers : String → Option Nat
  initialized : Bool
  lastErrorMessage : String
  gAvsApi : Option Nat

/-- The zero-initialized state of the singleton at process start. -/
def initialState : LoaderState :=
  { refCount := 0
    libraryHandle := none
    apiPointers := emptyTable
    initialized := false
    lastErrorMessage := ""
    gAvsApi := none }

/-- Result of a loader step: success flag, updated state, shim-call trace. -/
structure LoadRes where
  ok : Bool
  st : LoaderState
  tr : List Event

/-- Write one named slot of the function table. -/
def updateSlot (t : String → Option Nat) (name : String) (v : Option Nat) :
    String → Option Nat :=
  fun m => if m = name then v else t m

/-- `strncpy` into a buffer of `n + 1` bytes: the first `n` characters. -/
def truncateTo (n : Nat) (msg : String) : String :=
  String.mk (msg.data.take n)

/-- Error text for a missing required symbol. -/
def requiredFuncMsg (name : String) : String :=
  "Failed to load required function: " ++ name

/-- Error text when the shared library cannot be opened (POSIX, non-Apple). -/
def libNotFoundMsg : String :=
  "Failed to load avisynth library (libavisynth.so). Is Avisynth+ installed correctly?"

/-- Error text for a required name absent from the known-function schema. -/
def unknownFuncMsg (name : String) : String :=
  "Internal Error: Unknown function requested as required: " ++ name

/-- Version error when `avs_get_env_property` reported the host versions
(`snprintf` into a 200-byte static buffer). -/
def versionErrorFound (rM rB hM hB : Int) : String :=
  truncateTo 199 ("Avisynth C API Error: Plugin requires interface >= " ++
    toString rM ++ "." ++ toString rB ++ ", but found " ++
    toString hM ++ "." ++ toString hB ++ ".")

/-- Less precise version error used when `avs_get_env_property` is unavailable:
it names only the required version, never the detected host version. -/
def versionErrorDegraded (rM rB : Int) : String :=
  truncateTo 199 ("Avisynth C API Error: Plugin requires interface >= " ++
    toString rM ++ "." ++ toString rB ++
    ", but the installed AviSynth+ version is too old.")

/-- Fallback string of `get_last_error` when no message is recorded. -/
def unknownErrorFallback : String := "Unknown Avisynth C API loading error."

/-- `avisynth_c_api_loader::load_single_function`: resolve `name` via the shim;
on success store the address; a missing required symbol records an error and
fails, a missing optional symbol stores null and succeeds. -/
def load_single_function (host : Host) (s : LoaderState) (name : String)
    (required : Bool) : LoadRes :=
  match host.symbolAddr name with
  | some addr =>
      ⟨true, { s with apiPointers := updateSlot s.apiPointers name (some addr) },
        [Event.resolve name]⟩
  | none =>
      if required then
        ⟨false, { s with
            apiPointers := updateSlot s.apiPointers name none
            lastErrorMessage := requiredFuncMsg name }, [Event.resolve name]⟩
      else
        ⟨true, { s with apiPointers := updateSlot s.apiPointers name none },
          [Event.resolve name]⟩

/-- `avisynth_c_api_loader::unload_library`: when a handle is open, close it,
null the handle, zero the table, clear the initialized flag and null the
global accessor; a null handle is a no-op. -/
def unload_library (s : LoaderState) : LoaderState × List Event :=
  match s.libraryHandle with
  | some _ =>
      ({ s with
          libraryHandle := none
          apiPointers := emptyTable
          initialized := false
          gAvsApi := none }, [Event.closeLib])
  | none => (s, [])

/-- The three "loader essentials" resolutions: `avs_check_version` (required),
`avs_at_exit` (required), `avs_get_env_property` (optional).  All three run
unconditionally (the C++ accumulates with non-short-circuiting `&=`). -/
def essentialsStep (host : Host) (s : LoaderState) : LoadRes :=
  let r1 := load_single_function host s "avs_check_version" true
  let r2 := load_single_function host r1.st "avs_at_exit" true
  let r3 := load_single_function host r2.st "avs_get_env_property" false
  ⟨r1.ok && r2.ok && r3.ok, r3.st, r1.tr ++ (r2.tr ++ r3.tr)⟩

/-- The version comparison used by both the load sequence and the re-check on
an already loaded instance, when host versions are available. -/
def versionCompare (hM hB rM rB : Int) : Bool :=
  if rM < hM then true
  else if hM = rM then decide (rB ≤ hB)
  else false

/-- Whether the current requirement is satisfied, given the function table:
through `avs_get_env_property` when that slot is filled, otherwise through the
`avs_check_version` fallback (zero return means satisfied). -/
def recheckOk (host : Host) (t : String → Option Nat) (rM rB : Int) : Bool :=
  if (t "avs_get_env_property").isSome then
    versionCompare host.hostMajor host.hostBugfix rM rB
  else decide (host.checkVersionRet rM = 0)

/-- The version-negotiation step: on mismatch record the precise message when
`avs_get_env_property` was resolved, else the degraded message. -/
def versionStep (host : Host) (s : LoaderState) (rM rB : Int) :
    Bool × LoaderState :=
  if recheckOk host s.apiPointers rM rB then (true, s)
  else
    (false, { s with lastErrorMessage :=
      if (s.apiPointers "avs_get_env_property").isSome then
        versionErrorFound rM rB host.hostMajor host.hostBugfix
      else versionErrorDegraded rM rB })

/-- The loop over the caller's required names: a name outside the schema is an
internal-contract violation; a recognized name is resolved as required. -/
def requiredLoop (host : Host) (schema : List String) :
    List String → LoaderState → LoadRes
  | [], s => ⟨true, s, []⟩
  | name :: rest, s =>
      if schema.contains name then
        let r := load_single_function host s name true
        if r.ok then
          let r2 := requiredLoop host schema rest r.st
          ⟨r2.ok, r2.st, r.tr ++ r2.tr⟩
        else r
      else ⟨false, { s with lastErrorMessage := unknownFuncMsg name }, []⟩

/-- The best-effort loop over every known name: resolve optionally each slot
that is still null. -/
def optionalLoop (host : Host) : List String → LoaderState → LoadRes
  | [], s => ⟨true, s, []⟩
  | name :: rest, s =>
      if (s.apiPointers name).isNone then
        let r := load_single_function host s name false
        let r2 := optionalLoop host rest r.st
        ⟨true, r2.st, r.tr ++ r2.tr⟩
      else optionalLoop host rest s

/-- `avisynth_c_api_loader::load_functions`: open the library, resolve the
essentials, negotiate the version, resolve the caller's required names, then
every remaining known name best-effort; register the teardown callback, set
the initialized flag and clear the error message.  Every failure after a
successful open goes through `unload_library`. -/
def load_functions (host : Host) (schema : List String) (s : LoaderState)
    (rM rB : Int) (requiredNames : List String) : LoadRes :=
  if host.libAvailable then
    let s1 : LoaderState := { s with libraryHandle := some libHandleAddr }
    let re := essentialsStep host s1
    if re.ok then
      match versionStep host re.st rM rB with
      | (true, s2) =>
          let r3 := requiredLoop host schema requiredNames s2
          if r3.ok then
            let r4 := optionalLoop host schema r3.st
            ⟨true, { r4.st with initialized := true, lastErrorMessage := "" },
              Event.openLib :: (re.tr ++ (r3.tr ++ r4.tr))⟩
          else
            let u := unload_library r3.st
            ⟨false, u.fst, Event.openLib :: (re.tr ++ (r3.tr ++ u.snd))⟩
      | (false, s2) =>
          let u := unload_library s2
          ⟨false, u.fst, Event.openLib :: (re.tr ++ u.snd)⟩
    else
      let u := unload_library re.st
      ⟨false, u.fst, Event.openLib :: (re.tr ++ u.snd)⟩
  else
    ⟨false, { s with lastErrorMessage := libNotFoundMsg }, [Event.openLib]⟩

/-- `avisynth_c_api_loader::cleanup_callback`: decrement the reference count;
when the pre-decrement value was 1 (the 1 → 0 transition), unload. -/
def cleanup_callback (s : LoaderState) : LoaderState × List Event :=
  let old := s.refCount
  let s1 : LoaderState := { s with refCount := old - 1 }
  if old = 1 then unload_library s1 else (s1, [])

/-- `avisynth_c_api_loader::get_api`: increment the count; the 0 → 1 caller
runs the load sequence (rolling the increment back on failure); later callers
re-validate the version of the already loaded instance (unloading on mismatch)
or, if the singleton never initialized, release the extra reference and fail.
On success the table address is published through the global accessor. -/
def get_api (host : Host) (schema : List String) (s : LoaderState)
    (rM rB : Int) (requiredNames : List String) :
    Option Nat × LoaderState × List Event :=
  let pre := s.refCount
  let s1 : LoaderState := { s with refCount := pre + 1 }
  if pre = 0 then
    let r := load_functions host schema s1 rM rB requiredNames
    if r.ok then
      (some apiTableAddr, { r.st with gAvsApi := some apiTableAddr }, r.tr)
    else
      (none, { r.st with refCount := r.st.refCount - 1, gAvsApi := none }, r.tr)
  else
    if s1.initialized then
      match versionStep host s1 rM rB with
      | (true, s2) => (some apiTableAddr, { s2 with gAvsApi := some apiTableAddr }, [])
      | (false, s2) =>
          let u := unload_library s2
          (none, u.fst, u.snd)
    else
      let c := cleanup_callback s1
      (none, c.fst, c.snd)

/-- `avisynth_c_api_loader::get_last_error`: copy the stored message into a
static 300-byte buffer (truncating), or return the fixed fallback when no
message is recorded. -/
def get_last_error (s : LoaderState) : String :=
  if s.lastErrorMessage ≠ "" then truncateTo 299 s.lastErrorMessage
  else unknownErrorFallback

/-- Run a sequence of `get_api` calls, failing as soon as one returns null. -/
def runAll (host : Host) (schema : List String) :
    List (Int × Int × List String) → LoaderState → Option LoaderState
  | [], s => some s
  | (rM, rB, ns) :: rest, s =>
      match get_api host schema s rM rB ns with
      | (some _, s1, _) => runAll host schema rest s1
      | (none, _, _) => none

/-- Iterate the teardown callback `n` times. -/
def iterCleanup : Nat → LoaderState → LoaderState
  | 0, s => s
  | n + 1, s => iterCleanup n (cleanup_callback s).fst

/-- States reachable by the loader: an initialized singleton has an empty
error message, an open handle and at least one reference; a closed handle
goes with an all-null table; a zero count goes with a closed handle. -/
def Inv (s : LoaderState) : Prop :=
  (s.initialized = true →
    s.lastErrorMessage = "" ∧ s.libraryHandle = some libHandleAddr ∧ 1 ≤ s.refCount)
  ∧ (s.libraryHandle = none → s.apiPointers = emptyTable)
  ∧ (s.refCount = 0 → s.libraryHandle = none)

/-! Concrete fixtures used by the closed witness theorems. -/

/-- A small representative known-function schema (`avs_c_api_functions.inc`). -/
def schema0 : List String :=
  ["avs_check_version", "avs_at_exit", "avs_get_env_property",
   "avs_add_function", "avs_get_frame"]

/-- A host at interface version 10.0 exporting every schema name except
`avs_get_frame`. -/
def host0 : Host :=
  { libAvailable := true
    symbolAddr := fun n =>
      if n = "avs_totally_made_up" then none
      else if n = "avs_get_frame" then none
      else some 7
    hostMajor := 10
    hostBugfix := 0
    checkVersionRet := fun _ => 0 }

/-- The same host with the shared library missing. -/
def hostNoLib : Host := { host0 with libAvailable := false }

/-- A loaded singleton with one live reference, as left by a successful
first `get_api` call against a host at 10.0. -/
def readyState : LoaderState :=
  { refCount := 1
    libraryHandle := some libHandleAddr
    apiPointers := updateSlot emptyTable "avs_get_env_property" (some 7)
    initialized := true
    lastErrorMessage := ""
    gAvsApi := some apiTableAddr }

/-- A state where a reference was taken but initialization never finished. -/
def racingState : LoaderState := { initialState with refCount := 1 }

/-- An unloaded state still carrying the message of an earlier failure. -/
def staleErrorState : LoaderState :=
  { initialState with lastErrorMessage := "previous get_api failure" }

/-- Two satisfiable `get_api` requests used by the reference-count witness. -/
def reqs0 : List (Int × Int × List String) :=
  [(10, 0, ["avs_add_function"]), (10, 0, [])]

/-- The state after running `reqs0` against `host0` from the initial state. -/
def finalState0 : LoaderState :=
  (runAll host0 schema0 reqs0 initialState).getD initialState

/-! ### Field-preservation lemmas for the individual load steps -/

theorem load_single_function_fields (host : Host) (s : LoaderState)
    (name : String) (required : Bool) :
    (load_single_function host s name required).st.refCount = s.refCount ∧
    (load_single_function host s name required).st.libraryHandle = s.libraryHandle ∧
    (load_single_function host s name required).st.initialized = s.initialized ∧
    (load_single_function host s name required).st.gAvsApi = s.gAvsApi := by
  unfold load_single_function
  cases host.symbolAddr name with
  | some a => exact ⟨rfl, rfl, rfl, rfl⟩
  | none =>
    cases required with
    | true => exact ⟨rfl, rfl, rfl, rfl⟩
    | false => exact ⟨rfl, rfl, rfl, rfl⟩

theorem load_single_function_optional_ok (host : Host) (s : LoaderState)
    (name : String) :
    (load_single_function host s name false).ok = true := by
  unfold load_single_function
  cases host.symbolAddr name with
  | some a => rfl
  | none => rfl

theorem load_single_function_error_of_ok (host : Host) (s : LoaderState)
    (name : String) (required : Bool)
    (h : (load_single_function host s name required).ok = true) :
    (load_single_function host s name required).st.lastErrorMessage =
      s.lastErrorMessage := by
  unfold load_single_function at h ⊢
  cases hsym : host.symbolAddr name with
  | some a => rfl
  | none =>
    rw [hsym] at h
    cases required with
    | true => simp at h
    | false => rfl

theorem essentialsStep_fields (host : Host) (s : LoaderState) :
    (essentialsStep host s).st.refCount = s.refCount ∧
    (essentialsStep host s).st.libraryHandle = s.libraryHandle ∧
    (essentialsStep host s).st.initialized = s.initialized ∧
    (essentialsStep host s).st.gAvsApi = s.gAvsApi := by
  have h1 := load_single_function_fields host s "avs_check_version" true
  have h2 := load_single_function_fields host
    (load_single_function host s "avs_check_version" true).st "avs_at_exit" true
  have h3 := load_single_function_fields host
    (load_single_function host
      (load_single_function host s "avs_check_version" true).st "avs_at_exit" true).st
    "avs_get_env_property" false
  unfold essentialsStep
  exact ⟨by rw [h3.1, h2.1, h1.1], by rw [h3.2.1, h2.2.1, h1.2.1],
    by rw [h3.2.2.1, h2.2.2.1, h1.2.2.1], by rw [h3.2.2.2, h2.2.2.2, h1.2.2.2]⟩

theorem versionStep_snd_fields (host : Host) (s : LoaderState) (rM rB : Int) :
    (versionStep host s rM rB).snd.refCount = s.refCount ∧
    (versionStep host s rM rB).snd.libraryHandle = s.libraryHandle ∧
    (versionStep host s rM rB).snd.initialized = s.initialized ∧
    (versionStep host s rM rB).snd.gAvsApi = s.gAvsApi ∧
    (versionStep host s rM rB).snd.apiPointers = s.apiPointers := by
  unfold versionStep
  split
  · exact ⟨rfl, rfl, rfl, rfl, rfl⟩
  · exact ⟨rfl, rfl, rfl, rfl, rfl⟩

theorem requiredLoop_fields (host : Host) (schema : List String)
    (l : List String) (s : LoaderState) :
    (requiredLoop host schema l s).st.refCount = s.refCount ∧
    (requiredLoop host schema l s).st.libraryHandle = s.libraryHandle ∧
    (requiredLoop host schema l s).st.initialized = s.initialized ∧
    (requiredLoop host schema l s).st.gAvsApi = s.gAvsApi := by
  induction l generalizing s with
  | nil => exact ⟨rfl, rfl, rfl, rfl⟩
  | cons name rest ih =>
    unfold requiredLoop
    by_cases hc : schema.contains name
    · rw [if_pos hc]
      have hr := load_single_function_fields host s name true
      cases hok : (load_single_function host s name true).ok with
      | true =>
        simp only [hok, if_true]
        have ihr := ih (load_single_function host s name true).st
        exact ⟨ihr.1.trans hr.1, ihr.2.1.trans hr.2.1,
          ihr.2.2.1.trans hr.2.2.1, ihr.2.2.2.trans hr.2.2.2⟩
      | false =>
        simp only [hok, Bool.false_eq_true, if_false]
        exact hr
    · rw [if_neg hc]
      exact ⟨rfl, rfl, rfl, rfl⟩

theorem optionalLoop_fields (host : Host) (l : List String) (s : LoaderState) :
    (optionalLoop host l s).st.refCount = s.refCount ∧
    (optionalLoop host l s).st.libraryHandle = s.libraryHandle ∧
    (optionalLoop host l s).st.initialized = s.initialized ∧
    (optionalLoop host l s).st.gAvsApi = s.gAvsApi ∧
    (optionalLoop host l s).st.lastErrorMessage = s.lastErrorMessage := by
  induction l generalizing s with
  | nil => exact ⟨rfl, rfl, rfl, rfl, rfl⟩
  | cons name rest ih =>
    unfold optionalLoop
    by_cases hn : (s.apiPointers name).isNone
    · rw [if_pos hn]
      have hr := load_single_function_fields host s name false
      have hre := load_single_function_error_of_ok host s name false
        (load_single_function_optional_ok host s name)
      have ihr := ih (load_single_function host s name false).st
      exact ⟨ihr.1.trans hr.1, ihr.2.1.trans hr.2.1, ihr.2.2.1.trans hr.2.2.1,
        ihr.2.2.2.1.trans hr.2.2.2, ihr.2.2.2.2.trans hre⟩
    · rw [if_neg hn]
      exact ih s

theorem unload_library_of_some (s : LoaderState) (a : Nat)
    (h : s.libraryHandle = some a) :
    (unload_library s).fst = { s with
      libraryHandle := none
      apiPointers := emptyTable
      initialized := false
      gAvsApi := none } := by
  unfold unload_library
  rw [h]

theorem unload_library_keeps (s : LoaderState) :
    (unload_library s).fst.refCount = s.refCount ∧
    (unload_library s).fst.lastErrorMessage = s.lastErrorMessage := by
  unfold unload_library
  cases s.libraryHandle with
  | some a => exact ⟨rfl, rfl⟩
  | none => exact ⟨rfl, rfl⟩

theorem load_functions_ok_fields (host : Host) (schema : List String)
    (s : LoaderState) (rM rB : Int) (ns : List String)
    (h : (load_functions host schema s rM rB ns).ok = true) :
    (load_functions host schema s rM rB ns).st.libraryHandle = some libHandleAddr ∧
    (load_functions host schema s rM rB ns).st.initialized = true ∧
    (load_functions host schema s rM rB ns).st.lastErrorMessage = "" ∧
    (load_functions host schema s rM rB ns).st.refCount = s.refCount ∧
    (load_functions host schema s rM rB ns).st.gAvsApi = s.gAvsApi := by
  rcases hR : load_functions host schema s rM rB ns with ⟨ok, st, tr⟩
  rw [hR] at h
  dsimp only at h ⊢
  unfold load_functions at hR
  dsimp only at hR
  split at hR
  · split at hR
    · split at hR
      next s2 heq =>
        split at hR
        · cases hR
          have ho := optionalLoop_fields host schema
            ((requiredLoop host schema ns s2).st)
          have hq := requiredLoop_fields host schema ns s2
          have hv := versionStep_snd_fields host
            ((essentialsStep host { s with libraryHandle := some libHandleAddr }).st) rM rB
          have hv2 : s2 = (versionStep host
              ((essentialsStep host { s with libraryHandle := some libHandleAddr }).st)
              rM rB).snd := by rw [heq]
          have he := essentialsStep_fields host
            { s with libraryHandle := some libHandleAddr }
          have hs2a : s2.refCount = s.refCount := by rw [hv2, hv.1, he.1]
          have hs2b : s2.libraryHandle = some libHandleAddr := by
            rw [hv2, hv.2.1, he.2.1]
          have hs2c : s2.gAvsApi = s.gAvsApi := by
            rw [hv2, hv.2.2.2.1, he.2.2.2]
          refine ⟨?_, rfl, rfl, ?_, ?_⟩
          · simp only [ho.2.1, hq.2.1, hs2b]
          · simp only [ho.1, hq.1, hs2a]
          · simp only [ho.2.2.2.1, hq.2.2.2, hs2c]
        · cases hR; simp at h
      next s2 heq => cases hR; simp at h
    · cases hR; simp at h
  · cases hR; simp at h

theorem load_functions_fail_fields (host : Host) (schema : List String)
    (s : LoaderState) (rM rB : Int) (ns : List String)
    (h : (load_functions host schema s rM rB ns).ok = false) :
    (load_functions host schema s rM rB ns).st.refCount = s.refCount ∧
    (((load_functions host schema s rM rB ns).st.libraryHandle = s.libraryHandle ∧
      (load_functions host schema s rM rB ns).st.apiPointers = s.apiPointers ∧
      (load_functions host schema s rM rB ns).st.initialized = s.initialized ∧
      (load_functions host schema s rM rB ns).st.gAvsApi = s.gAvsApi) ∨
     ((load_functions host schema s rM rB ns).st.libraryHandle = none ∧
      (load_functions host schema s rM rB ns).st.apiPointers = emptyTable ∧
      (load_functions host schema s rM rB ns).st.initialized = false ∧
      (load_functions host schema s rM rB ns).st.gAvsApi = none)) := by
  rcases hR : load_functions host schema s rM rB ns with ⟨ok, st, tr⟩
  rw [hR] at h
  dsimp only at h ⊢
  unfold load_functions at hR
  dsimp only at hR
  split at hR
  · split at hR
    · split at hR
      next s2 heq =>
        split at hR
        · cases hR; simp at h
        · cases hR
          have hq := requiredLoop_fields host schema ns s2
          have hv := versionStep_snd_fields host
            ((essentialsStep host { s with libraryHandle := some libHandleAddr }).st) rM rB
          have hv2 : s2 = (versionStep host
              ((essentialsStep host { s with libraryHandle := some libHandleAddr }).st)
              rM rB).snd := by rw [heq]
          have he := essentialsStep_fields host
            { s with libraryHandle := some libHandleAddr }
          have hs2a : s2.refCount = s.refCount := by rw [hv2, hv.1, he.1]
          have hs2b : s2.libraryHandle = some libHandleAddr := by
            rw [hv2, hv.2.1, he.2.1]
          have hhandle : (requiredLoop host schema ns s2).st.libraryHandle =
              some libHandleAddr := by
            simp only [hq.2.1, hs2b]
          have hu := unload_library_of_some _ _ hhandle
          rw [hu]
          refine ⟨?_, Or.inr ⟨rfl, rfl, rfl, rfl⟩⟩
          simp only [hq.1, hs2a]
      next s2 heq =>
        cases hR
        have hv := versionStep_snd_fields host
          ((essentialsStep host { s with libraryHandle := some libHandleAddr }).st) rM rB
        have hv2 : s2 = (versionStep host
            ((essentialsStep host { s with libraryHandle := some libHandleAddr }).st)
            rM rB).snd := by rw [heq]
        have he := essentialsStep_fields host
          { s with libraryHandle := some libHandleAddr }
        have hhandle : s2.libraryHandle = some libHandleAddr := by
          rw [hv2, hv.2.1, he.2.1]
        have hu := unload_library_of_some _ _ hhandle
        rw [hu]
        refine ⟨?_, Or.inr ⟨rfl, rfl, rfl, rfl⟩⟩
        rw [hv2, hv.1, he.1]
    · cases hR
      next hre =>
        have he := essentialsStep_fields host
          { s with libraryHandle := some libHandleAddr }
        have hhandle : (essentialsStep host
            { s with libraryHandle := some libHandleAddr }).st.libraryHandle =
            some libHandleAddr := by simp only [he.2.1]
        have hu := unload_library_of_some _ _ hhandle
        rw [hu]
        exact ⟨he.1, Or.inr ⟨rfl, rfl, rfl, rfl⟩⟩
  · cases hR
    exact ⟨rfl, Or.inl ⟨rfl, rfl, rfl, rfl⟩⟩

theorem versionStep_true_state (host : Host) (s : LoaderState) (rM rB : Int)
    (s2 : LoaderState) (h : versionStep host s rM rB = (true, s2)) : s2 = s := by
  unfold versionStep at h
  split at h
  · injection h with h1 h2
    exact h2.symm
  · injection h with h1 h2
    simp at h1

theorem cleanup_callback_decrement (s : LoaderState) (h : s.refCount ≠ 1) :
    (cleanup_callback s).fst = { s with refCount := s.refCount - 1 } ∧
    (cleanup_callback s).snd = [] := by
  unfold cleanup_callback
  rw [if_neg h]
  exact ⟨rfl, rfl⟩

theorem cleanup_callback_unload (s : LoaderState) (a : Nat)
    (h : s.refCount = 1) (h2 : s.libraryHandle = some a) :
    (cleanup_callback s).fst = { s with
      refCount := s.refCount - 1
      libraryHandle := none
      apiPointers := emptyTable
      initialized := false
      gAvsApi := none } := by
  unfold cleanup_callback
  rw [if_pos h]
  exact unload_library_of_some { s with refCount := s.refCount - 1 } a h2

theorem get_api_success_fields (host : Host) (schema : List String)
    (s : LoaderState) (rM rB : Int) (ns : List String) (hInv : Inv s)
    (h : (get_api host schema s rM rB ns).fst.isSome = true) :
    (get_api host schema s rM rB ns).snd.fst.refCount = s.refCount + 1 ∧
    1 ≤ (get_api host schema s rM rB ns).snd.fst.refCount ∧
    (get_api host schema s rM rB ns).snd.fst.initialized = true ∧
    (get_api host schema s rM rB ns).snd.fst.libraryHandle = some libHandleAddr ∧
    (get_api host schema s rM rB ns).snd.fst.lastErrorMessage = "" ∧
    (get_api host schema s rM rB ns).snd.fst.gAvsApi = some apiTableAddr ∧
    (get_api host schema s rM rB ns).fst = some apiTableAddr := by
  rcases hR : get_api host schema s rM rB ns with ⟨res, s', tr⟩
  rw [hR] at h
  dsimp only at h ⊢
  unfold get_api at hR
  dsimp only at hR
  split at hR
  next hpre =>
    split at hR
    next hok =>
      cases hR
      have hl := load_functions_ok_fields host schema
        { s with refCount := s.refCount + 1 } rM rB ns hok
      refine ⟨hl.2.2.2.1, ?_, hl.2.1, hl.1, hl.2.2.1, rfl, rfl⟩
      rw [hl.2.2.2.1]
      show (1 : Int) ≤ s.refCount + 1
      omega
    next hok =>
      cases hR
      simp at h
  next hpre =>
    split at hR
    next hinit =>
      split at hR
      next s2 heq =>
        cases hR
        have hs2 := versionStep_true_state host
          { s with refCount := s.refCount + 1 } rM rB s2 heq
        subst hs2
        have hready := hInv.1 hinit
        refine ⟨rfl, ?_, hinit, hready.2.1, hready.1, rfl, rfl⟩
        have := hready.2.2
        show (1 : Int) ≤ s.refCount + 1
        omega
      next s2 heq =>
        cases hR
        simp at h
    next hinit =>
      cases hR
      simp at h

theorem runAll_spec (host : Host) (schema : List String)
    (reqs : List (Int × Int × List String)) (s s' : LoaderState)
    (hInv : Inv s) (h : runAll host schema reqs s = some s') :
    s'.refCount = s.refCount + reqs.length ∧
    (reqs = [] → s' = s) ∧
    (reqs ≠ [] → s'.initialized = true ∧
      s'.libraryHandle = some libHandleAddr ∧ s'.lastErrorMessage = "") := by
  induction reqs generalizing s with
  | nil =>
    unfold runAll at h
    injection h with h1
    subst h1
    refine ⟨by simp, fun _ => rfl, fun hne => absurd rfl hne⟩
  | cons r rest ih =>
    obtain ⟨rM, rB, ns⟩ := r
    unfold runAll at h
    split at h
    next x s1 trc heq =>
      have hs := get_api_success_fields host schema s rM rB ns hInv
        (by rw [heq]; rfl)
      rw [heq] at hs
      dsimp only at hs
      have hInv1 : Inv s1 := by
        refine ⟨fun _ => ⟨hs.2.2.2.2.1, hs.2.2.2.1, hs.2.1⟩, ?_, ?_⟩
        · intro hh
          rw [hs.2.2.2.1] at hh
          cases hh
        · intro hh
          rw [hh] at hs
          have := hs.2.1
          omega
      have hrest := ih s1 hInv1 h
      refine ⟨?_, ?_, ?_⟩
      · rw [hrest.1, hs.1]
        simp only [List.length_cons]
        push_cast
        omega
      · intro hc
        exact absurd hc (List.cons_ne_nil _ _)
      · intro _
        by_cases hre : rest = []
        · have hs' : s' = s1 := hrest.2.1 hre
          rw [hs']
          exact ⟨hs.2.2.1, hs.2.2.2.1, hs.2.2.2.2.1⟩
        · exact hrest.2.2 hre
    next heq =>
      cases h

theorem iterCleanup_drain (n : Nat) (s : LoaderState)
    (h1 : s.refCount = (n : Int) + 1)
    (h2 : s.libraryHandle = some libHandleAddr) :
    (iterCleanup (n + 1) s).refCount = 0 ∧
    (iterCleanup (n + 1) s).libraryHandle = none ∧
    (iterCleanup (n + 1) s).apiPointers = emptyTable ∧
    (iterCleanup (n + 1) s).initialized = false ∧
    (iterCleanup (n + 1) s).gAvsApi = none ∧
    (iterCleanup (n + 1) s).lastErrorMessage = s.lastErrorMessage := by
  induction n generalizing s with
  | zero =>
    have hone : s.refCount = 1 := by omega
    have hc := cleanup_callback_unload s libHandleAddr hone h2
    show (iterCleanup 0 (cleanup_callback s).fst).refCount = 0 ∧ _
    unfold iterCleanup
    rw [hc]
    refine ⟨by show s.refCount - 1 = 0; omega, rfl, rfl, rfl, rfl, rfl⟩
  | succ k ih =>
    have hne : s.refCount ≠ 1 := by omega
    have hc := (cleanup_callback_decrement s hne).1
    have hstep : iterCleanup (k + 1 + 1) s =
        iterCleanup (k + 1) (cleanup_callback s).fst := rfl
    rw [hstep, hc]
    exact ih { s with refCount := s.refCount - 1 }
      (by show s.refCount - 1 = (k : Int) + 1; push_cast at h1; omega) h2

theorem inv_initialState : Inv initialState :=
  ⟨fun hi => absurd hi (by decide), fun _ => rfl, fun _ => rfl⟩

theorem versionCompare_iff (hM hB rM rB : Int) :
    versionCompare hM hB rM rB = true ↔
      (rM < hM ∨ (hM = rM ∧ rB ≤ hB)) := by
  unfold versionCompare
  by_cases h1 : rM < hM
  · simp [h1]
  · by_cases h2 : hM = rM
    · simp [h1, h2]
    · simp [h1, h2]

theorem versionStep_fst_eq (host : Host) (s : LoaderState) (rM rB : Int) :
    (versionStep host s rM rB).fst = recheckOk host s.apiPointers rM rB := by
  unfold versionStep
  split
  next h => exact h.symm
  next h =>
    have := Bool.not_eq_true (recheckOk host s.apiPointers rM rB)
    rw [this] at h
    exact h.symm

theorem load_single_function_ok_of_isSome (host : Host) (s : LoaderState)
    (name : String) (required : Bool)
    (h : (host.symbolAddr name).isSome = true) :
    (load_single_function host s name required).ok = true := by
  unfold load_single_function
  cases hsym : host.symbolAddr name with
  | some a => rfl
  | none => rw [hsym] at h; cases h

theorem load_single_function_slot (host : Host) (s : LoaderState)
    (name : String) (required : Bool) :
    (load_single_function host s name required).st.apiPointers name =
      host.symbolAddr name := by
  unfold load_single_function
  cases hsym : host.symbolAddr name with
  | some a =>
    show updateSlot s.apiPointers name (some a) name = some a
    unfold updateSlot
    rw [if_pos rfl]
  | none =>
    cases required with
    | true =>
      show updateSlot s.apiPointers name none name = none
      unfold updateSlot
      rw [if_pos rfl]
    | false =>
      show updateSlot s.apiPointers name none name = none
      unfold updateSlot
      rw [if_pos rfl]

theorem essentialsStep_ok (host : Host) (s : LoaderState)
    (hcv : (host.symbolAddr "avs_check_version").isSome = true)
    (hae : (host.symbolAddr "avs_at_exit").isSome = true) :
    (essentialsStep host s).ok = true := by
  unfold essentialsStep
  dsimp only
  rw [load_single_function_ok_of_isSome host s "avs_check_version" true hcv,
    load_single_function_ok_of_isSome host _ "avs_at_exit" true hae,
    load_single_function_optional_ok host _ "avs_get_env_property"]
  rfl

theorem essentialsStep_prop_slot (host : Host) (s : LoaderState) :
    (essentialsStep host s).st.apiPointers "avs_get_env_property" =
      host.symbolAddr "avs_get_env_property" := by
  unfold essentialsStep
  exact load_single_function_slot host _ "avs_get_env_property" false

theorem recheckOk_congr (host : Host) (t t' : String → Option Nat) (rM rB : Int)
    (h : t "avs_get_env_property" = t' "avs_get_env_property") :
    recheckOk host t rM rB = recheckOk host t' rM rB := by
  unfold recheckOk
  rw [h]

theorem requiredLoop_fail_of_unknown (host : Host) (schema : List String)
    (l : List String) (s : LoaderState) (u : String) (hu : u ∈ l)
    (hc : schema.contains u = false) :
    (requiredLoop host schema l s).ok = false := by
  induction l generalizing s with
  | nil => cases hu
  | cons n rest ih =>
    unfold requiredLoop
    by_cases hcn : schema.contains n = true
    · rw [if_pos hcn]
      cases hok : (load_single_function host s n true).ok with
      | true =>
        simp only [hok, if_true]
        have hur : u ∈ rest := by
          rcases List.mem_cons.mp hu with h1 | h2
          · rw [h1] at hc
            rw [hcn] at hc
            cases hc
          · exact h2
        exact ih (load_single_function host s n true).st hur
      | false =>
        rw [if_neg (by rw [hok]; simp)]
        exact hok
    · rw [if_neg hcn]

theorem requiredLoop_unknown_msg (host : Host) (schema : List String)
    (pre : List String) (u : String) (post : List String) (s : LoaderState)
    (hpre : ∀ n ∈ pre, schema.contains n = true ∧ (host.symbolAddr n).isSome = true)
    (hc : schema.contains u = false) :
    (requiredLoop host schema (pre ++ u :: post) s).ok = false ∧
    (requiredLoop host schema (pre ++ u :: post) s).st.lastErrorMessage =
      unknownFuncMsg u ∧
    (requiredLoop host schema (pre ++ u :: post) s).st.libraryHandle =
      s.libraryHandle := by
  induction pre generalizing s with
  | nil =>
    simp only [List.nil_append, requiredLoop]
    rw [if_neg (by rw [hc]; simp)]
    exact ⟨rfl, rfl, rfl⟩
  | cons n rest ih =>
    have hn := hpre n (List.mem_cons_self n rest)
    simp only [List.cons_append, requiredLoop]
    rw [if_pos hn.1]
    have hok := load_single_function_ok_of_isSome host s n true hn.2
    rw [if_pos hok]
    have hrest := ih (load_single_function host s n true).st
      (fun m hm => hpre m (List.mem_cons_of_mem n hm))
    have hlsf := load_single_function_fields host s n true
    exact ⟨hrest.1, hrest.2.1, hrest.2.2.trans hlsf.2.1⟩

theorem load_functions_fail_of_unknown (host : Host) (schema : List String)
    (s : LoaderState) (rM rB : Int) (ns : List String) (u : String)
    (hu : u ∈ ns) (hc : schema.contains u = false) :
    (load_functions host schema s rM rB ns).ok = false := by
  unfold load_functions
  dsimp only
  split
  · split
    · split
      next s2 heq =>
        split
        next hq =>
          rw [requiredLoop_fail_of_unknown host schema ns s2 u hu hc] at hq
          cases hq
        next hq => rfl
      next s2 heq => rfl
    · rfl
  · rfl

theorem load_functions_unknown_msg (host : Host) (schema : List String)
    (s : LoaderState) (rM rB : Int) (pre : List String) (u : String)
    (post : List String)
    (hlib : host.libAvailable = true)
    (hcv : (host.symbolAddr "avs_check_version").isSome = true)
    (hae : (host.symbolAddr "avs_at_exit").isSome = true)
    (hver : recheckOk host host.symbolAddr rM rB = true)
    (hpre : ∀ n ∈ pre, schema.contains n = true ∧ (host.symbolAddr n).isSome = true)
    (hc : schema.contains u = false) :
    (load_functions host schema s rM rB (pre ++ u :: post)).ok = false ∧
    (load_functions host schema s rM rB (pre ++ u :: post)).st.lastErrorMessage =
      unknownFuncMsg u ∧
    (load_functions host schema s rM rB (pre ++ u :: post)).st.libraryHandle =
      none := by
  unfold load_functions
  dsimp only
  rw [if_pos hlib]
  rw [if_pos (essentialsStep_ok host { s with libraryHandle := some libHandleAddr } hcv hae)]
  have hcond : recheckOk host
      (essentialsStep host { s with libraryHandle := some libHandleAddr }).st.apiPointers
      rM rB = true := by
    rw [recheckOk_congr host _ host.symbolAddr rM rB
      (essentialsStep_prop_slot host { s with libraryHandle := some libHandleAddr })]
    exact hver
  have hvs : versionStep host
      (essentialsStep host { s with libraryHandle := some libHandleAddr }).st rM rB =
      (true, (essentialsStep host { s with libraryHandle := some libHandleAddr }).st) := by
    unfold versionStep
    rw [if_pos hcond]
  rw [hvs]
  dsimp only
  have hloop := requiredLoop_unknown_msg host schema pre u post
    (essentialsStep host { s with libraryHandle := some libHandleAddr }).st hpre hc
  rw [if_neg (by rw [hloop.1]; simp)]
  have hess := essentialsStep_fields host { s with libraryHandle := some libHandleAddr }
  have hhandle : (requiredLoop host schema (pre ++ u :: post)
      (essentialsStep host { s with libraryHandle := some libHandleAddr }).st).st.libraryHandle =
      some libHandleAddr := by
    rw [hloop.2.2, hess.2.1]
  have hu2 := unload_library_of_some _ _ hhandle
  rw [hu2]
  exact ⟨rfl, hloop.2.1, rfl⟩

theorem get_api_fail_of_load_fail (host : Host) (schema : List String)
    (s : LoaderState) (rM rB : Int) (ns : List String) (h0 : s.refCount = 0)
    (hL : (load_functions host schema { s with refCount := s.refCount + 1 }
      rM rB ns).ok = false) :
    (get_api host schema s rM rB ns).fst = none ∧
    (get_api host schema s rM rB ns).snd.fst.refCount =
      (load_functions host schema { s with refCount := s.refCount + 1 }
        rM rB ns).st.refCount - 1 ∧
    (get_api host schema s rM rB ns).snd.fst.lastErrorMessage =
      (load_functions host schema { s with refCount := s.refCount + 1 }
        rM rB ns).st.lastErrorMessage ∧
    (get_api host schema s rM rB ns).snd.fst.libraryHandle =
      (load_functions host schema { s with refCount := s.refCount + 1 }
        rM rB ns).st.libraryHandle ∧
    (get_api host schema s rM rB ns).snd.fst.apiPointers =
      (load_functions host schema { s with refCount := s.refCount + 1 }
        rM rB ns).st.apiPointers ∧
    (get_api host schema s rM rB ns).snd.fst.initialized =
      (load_functions host schema { s with refCount := s.refCount + 1 }
        rM rB ns).st.initialized ∧
    (get_api host schema s rM rB ns).snd.fst.gAvsApi = none := by
  unfold get_api
  dsimp only
  rw [if_pos h0]
  rw [if_neg (by rw [hL]; simp)]
  exact ⟨rfl, rfl, rfl, rfl, rfl, rfl, rfl⟩

theorem get_api_fail_first_fields (host : Host) (schema : List String)
    (s : LoaderState) (rM rB : Int) (ns : List String) (hInv : Inv s)
    (h0 : s.refCount = 0)
    (hfail : (get_api host schema s rM rB ns).fst = none) :
    (get_api host schema s rM rB ns).snd.fst.refCount = s.refCount ∧
    (get_api host schema s rM rB ns).snd.fst.libraryHandle = none ∧
    (get_api host schema s rM rB ns).snd.fst.apiPointers = emptyTable ∧
    (get_api host schema s rM rB ns).snd.fst.initialized = false ∧
    (get_api host schema s rM rB ns).snd.fst.gAvsApi = none := by
  have hL : (load_functions host schema { s with refCount := s.refCount + 1 }
      rM rB ns).ok = false := by
    by_contra hne
    rw [Bool.not_eq_false] at hne
    unfold get_api at hfail
    dsimp only at hfail
    rw [if_pos h0, if_pos hne] at hfail
    cases hfail
  have hgf := get_api_fail_of_load_fail host schema s rM rB ns h0 hL
  have hff := load_functions_fail_fields host schema
    { s with refCount := s.refCount + 1 } rM rB ns hL
  have hsh : s.libraryHandle = none := hInv.2.2 h0
  have hst : s.apiPointers = emptyTable := hInv.2.1 hsh
  have hsi : s.initialized = false := by
    cases hi : s.initialized with
    | false => rfl
    | true =>
      have := (hInv.1 hi).2.2
      omega
  refine ⟨?_, ?_, ?_, ?_, hgf.2.2.2.2.2.2⟩
  · rw [hgf.2.1, hff.1]
    show s.refCount + 1 - 1 = s.refCount
    omega
  · rw [hgf.2.2.2.1]
    rcases hff.2 with hl | hr
    · rw [hl.1]
      exact hsh
    · exact hr.1
  · rw [hgf.2.2.2.2.1]
    rcases hff.2 with hl | hr
    · rw [hl.2.1]
      exact hst
    · exact hr.2.1
  · rw [hgf.2.2.2.2.2.1]
    rcases hff.2 with hl | hr
    · rw [hl.2.2.1]
      exact hsi
    · exact hr.2.2.1

theorem unload_library_unloaded (s : LoaderState)
    (h : s.libraryHandle = none) (h2 : s.apiPointers = emptyTable)
    (h3 : s.initialized = false) (h4 : s.gAvsApi = none) :
    (unload_library s).fst.libraryHandle = none ∧
    (unload_library s).fst.apiPointers = emptyTable ∧
    (unload_library s).fst.initialized = false ∧
    (unload_library s).fst.gAvsApi = none := by
  unfold unload_library
  rw [h]
  exact ⟨h, h2, h3, h4⟩

/-! ### Claim theorems -/

/-- C1 (code divergence): from a successfully loaded state with one live
reference, a later `get_api` call whose version requirement (11.0) is not met
by the host (10.0) unloads the library and returns null, and the global
accessor and handle do reflect `UNLOADED`; but the reference count is left at
2 (the increment made on entry is never rolled back), not 0 as the claim
demands. -/
theorem claim_C1_refcount_not_reset :
    (get_api host0 schema0 readyState 11 0 []).fst = none ∧
    (get_api host0 schema0 readyState 11 0 []).snd.fst.gAvsApi = none ∧
    (get_api host0 schema0 readyState 11 0 []).snd.fst.libraryHandle = none ∧
    (get_api host0 schema0 readyState 11 0 []).snd.fst.initialized = false ∧
    (get_api host0 schema0 readyState 11 0 []).snd.fst.refCount = 2 := by
  decide

/-- C2: after any sequence of N successful `get_api` calls from the initial
state the reference count equals N, and after N teardown callbacks it is back
to 0 with the handle cleared, the table zeroed, the initialized flag cleared
and the shared accessor nulled. -/
theorem claim_C2 (host : Host) (schema : List String)
    (reqs : List (Int × Int × List String)) (s' : LoaderState)
    (h : runAll host schema reqs initialState = some s') :
    s'.refCount = reqs.length ∧
    (iterCleanup reqs.length s').refCount = 0 ∧
    (iterCleanup reqs.length s').libraryHandle = none ∧
    (iterCleanup reqs.length s').apiPointers = emptyTable ∧
    (iterCleanup reqs.length s').initialized = false ∧
    (iterCleanup reqs.length s').gAvsApi = none := by
  cases reqs with
  | nil =>
    have hspec := runAll_spec host schema [] initialState s' inv_initialState h
    have hs' := hspec.2.1 rfl
    subst hs'
    exact ⟨by decide, rfl, rfl, rfl, rfl, rfl⟩
  | cons r rest =>
    have hspec := runAll_spec host schema (r :: rest) initialState s'
      inv_initialState h
    have hready := hspec.2.2 (List.cons_ne_nil r rest)
    have hcnt : s'.refCount = (rest.length : Int) + 1 := by
      rw [hspec.1]
      show (0 : Int) + ((r :: rest).length : Int) = _
      simp only [List.length_cons]
      push_cast
      omega
    have hd := iterCleanup_drain rest.length s' hcnt hready.2.1
    refine ⟨?_, hd.1, hd.2.1, hd.2.2.1, hd.2.2.2.1, hd.2.2.2.2.1⟩
    rw [hspec.1]
    show (0 : Int) + ((r :: rest).length : Int) = ((r :: rest).length : Int)
    omega

/-- C2 witness: two successful calls leave the count at 2; two teardowns
return it to 0 with the handle and accessor cleared. -/
theorem claim_C2_witness :
    runAll host0 schema0 reqs0 initialState = some finalState0 ∧
    finalState0.refCount = 2 ∧
    (iterCleanup reqs0.length finalState0).refCount = 0 ∧
    (iterCleanup reqs0.length finalState0).libraryHandle = none ∧
    (iterCleanup reqs0.length finalState0).gAvsApi = none := by
  have hrun : runAll host0 schema0 reqs0 initialState = some finalState0 := rfl
  have h := claim_C2 host0 schema0 reqs0 finalState0 hrun
  exact ⟨hrun, by rw [h.1]; decide, h.2.1, h.2.2.1, h.2.2.2.2.2⟩

/-- C3: during the load sequence the version requirement is satisfied exactly
as specified: with the property getter available, iff the host major exceeds
the requirement or equals it with a sufficient bugfix number; without it, iff
the `avs_check_version` bootstrap call returns zero, and the failure message
in that branch is the degraded one carrying no detected host version. -/
theorem claim_C3 (host : Host) (s : LoaderState) (rM rB : Int) :
    ((s.apiPointers "avs_get_env_property").isSome = true →
      ((versionStep host s rM rB).fst = true ↔
        (rM < host.hostMajor ∨ (host.hostMajor = rM ∧ rB ≤ host.hostBugfix)))) ∧
    ((s.apiPointers "avs_get_env_property").isSome = false →
      (((versionStep host s rM rB).fst = true ↔ host.checkVersionRet rM = 0) ∧
       ((versionStep host s rM rB).fst = false →
         (versionStep host s rM rB).snd.lastErrorMessage =
           versionErrorDegraded rM rB))) := by
  constructor
  · intro hp
    rw [versionStep_fst_eq]
    unfold recheckOk
    rw [if_pos hp]
    exact versionCompare_iff host.hostMajor host.hostBugfix rM rB
  · intro hp
    have hp' : ¬((s.apiPointers "avs_get_env_property").isSome = true) := by
      rw [hp]
      simp
    constructor
    · rw [versionStep_fst_eq]
      unfold recheckOk
      rw [if_neg hp']
      simp
    · intro hfalse
      rw [versionStep_fst_eq] at hfalse
      unfold versionStep
      rw [if_neg (by rw [hfalse]; simp)]
      rw [if_neg hp']

/-- C3 witness: with the property getter loaded and the host at 10.0, the
comparison form of the negotiation rule is the one computed. -/
theorem claim_C3_witness :
    (readyState.apiPointers "avs_get_env_property").isSome = true ∧
    ((versionStep host0 readyState 10 0).fst = true ↔
      ((10 : Int) < host0.hostMajor ∨
        (host0.hostMajor = 10 ∧ (0 : Int) ≤ host0.hostBugfix))) :=
  ⟨by decide, (claim_C3 host0 readyState 10 0).1 (by decide)⟩

/-- C4: every failing first-caller (0-to-1) load attempt restores the count
to its pre-call value 0 and leaves the singleton unloaded: no handle, zeroed
table, cleared flag, null accessor. -/
theorem claim_C4 (host : Host) (schema : List String) (s : LoaderState)
    (rM rB : Int) (ns : List String) (hInv : Inv s) (h0 : s.refCount = 0)
    (hfail : (get_api host schema s rM rB ns).fst = none) :
    (get_api host schema s rM rB ns).snd.fst.refCount = s.refCount ∧
    (get_api host schema s rM rB ns).snd.fst.libraryHandle = none ∧
    (get_api host schema s rM rB ns).snd.fst.apiPointers = emptyTable ∧
    (get_api host schema s rM rB ns).snd.fst.initialized = false ∧
    (get_api host schema s rM rB ns).snd.fst.gAvsApi = none :=
  get_api_fail_first_fields host schema s rM rB ns hInv h0 hfail

/-- C4 witness: a first call against a host without the shared library fails
and leaves the zero state. -/
theorem claim_C4_witness :
    initialState.refCount = 0 ∧
    (get_api hostNoLib schema0 initialState 10 0 ["avs_add_function"]).fst =
      none ∧
    (get_api hostNoLib schema0 initialState 10 0
      ["avs_add_function"]).snd.fst.refCount = 0 ∧
    (get_api hostNoLib schema0 initialState 10 0
      ["avs_add_function"]).snd.fst.libraryHandle = none ∧
    (get_api hostNoLib schema0 initialState 10 0
      ["avs_add_function"]).snd.fst.apiPointers = emptyTable := by
  have h := claim_C4 hostNoLib schema0 initialState 10 0 ["avs_add_function"]
    inv_initialState rfl (by rfl)
  exact ⟨rfl, by rfl, h.1, h.2.1, h.2.2.1⟩

/-- C5: a `get_api` call finding the singleton loaded (count > 0,
initialized) with its version requirement satisfied performs no shim call at
all (no re-open, no re-resolution: empty event trace), only bumps the count
and republishes the accessor; and every successful call, whichever branch it
takes, returns the one shared table address. -/
theorem claim_C5 :
    (∀ (host : Host) (schema : List String) (s : LoaderState) (rM rB : Int)
      (ns : List String), 0 < s.refCount → s.initialized = true →
      recheckOk host s.apiPointers rM rB = true →
      get_api host schema s rM rB ns =
        (some apiTableAddr,
          { s with refCount := s.refCount + 1, gAvsApi := some apiTableAddr },
          [])) ∧
    (∀ (host : Host) (schema : List String) (s : LoaderState) (rM rB : Int)
      (ns : List String),
      (get_api host schema s rM rB ns).fst ≠ none →
      (get_api host schema s rM rB ns).fst = some apiTableAddr) := by
  constructor
  · intro host schema s rM rB ns hpos hinit hok
    unfold get_api
    dsimp only
    rw [if_neg (by omega : ¬s.refCount = 0)]
    rw [if_pos (show ({ s with refCount := s.refCount + 1 } :
      LoaderState).initialized = true from hinit)]
    have hvs : versionStep host { s with refCount := s.refCount + 1 } rM rB =
        (true, { s with refCount := s.refCount + 1 }) := by
      unfold versionStep
      rw [if_pos (show recheckOk host ({ s with refCount := s.refCount + 1 } :
        LoaderState).apiPointers rM rB = true from hok)]
    rw [hvs]
  · intro host schema s rM rB ns h
    rcases hR : get_api host schema s rM rB ns with ⟨res, s', tr⟩
    rw [hR] at h
    dsimp only at h ⊢
    unfold get_api at hR
    dsimp only at hR
    split at hR
    · split at hR
      · cases hR
        rfl
      · cases hR
        exact absurd rfl h
    · split at hR
      · split at hR
        next s2 heq =>
          cases hR
          rfl
        next s2 heq =>
          cases hR
          exact absurd rfl h
      · cases hR
        exact absurd rfl h

/-- C5 witness: a re-validating call on the ready state makes no shim call
and returns the shared address. -/
theorem claim_C5_witness :
    0 < readyState.refCount ∧
    recheckOk host0 readyState.apiPointers 10 0 = true ∧
    get_api host0 schema0 readyState 10 0 [] =
      (some apiTableAddr,
        { readyState with
          refCount := readyState.refCount + 1
          gAvsApi := some apiTableAddr }, []) :=
  ⟨by decide, by decide,
    claim_C5.1 host0 schema0 readyState 10 0 [] (by decide) rfl (by decide)⟩

/-- C6: a successful load followed by the matching 1-to-0 teardown returns
the loader bit-for-bit to the zeroed initial state. -/
theorem claim_C6 (host : Host) (schema : List String) (rM rB : Int)
    (ns : List String)
    (h : (get_api host schema initialState rM rB ns).fst.isSome = true) :
    (cleanup_callback (get_api host schema initialState rM rB ns).snd.fst).fst =
      initialState := by
  have hs := get_api_success_fields host schema initialState rM rB ns
    inv_initialState h
  have hone : (get_api host schema initialState rM rB ns).snd.fst.refCount = 1 := by
    rw [hs.1]
    rfl
  have hc := cleanup_callback_unload _ libHandleAddr hone hs.2.2.2.1
  rw [hc]
  apply LoaderState.ext
  · show (get_api host schema initialState rM rB ns).snd.fst.refCount - 1 =
      initialState.refCount
    rw [hone]
    rfl
  · rfl
  · rfl
  · rfl
  · show (get_api host schema initialState rM rB ns).snd.fst.lastErrorMessage =
      initialState.lastErrorMessage
    rw [hs.2.2.2.2.1]
    rfl
  · rfl

/-- C6 witness: the round trip on the concrete host lands exactly on the
initial state. -/
theorem claim_C6_witness :
    (cleanup_callback
      (get_api host0 schema0 initialState 10 0 ["avs_add_function"]).snd.fst).fst =
      initialState :=
  claim_C6 host0 schema0 10 0 ["avs_add_function"] (by rfl)

/-- C7 counterexample: when a recognized required name that the host cannot
resolve precedes the unknown name, the load still fails but the recorded
message is the missing-function one, not the internal-contract-violation
message naming the unknown symbol that the claim asserts. -/
theorem claim_C7_counterexample :
    ("avs_totally_made_up" ∈ ["avs_get_frame", "avs_totally_made_up"]) ∧
    schema0.contains "avs_totally_made_up" = false ∧
    (get_api host0 schema0 initialState 10 0
      ["avs_get_frame", "avs_totally_made_up"]).fst = none ∧
    (get_api host0 schema0 initialState 10 0
      ["avs_get_frame", "avs_totally_made_up"]).snd.fst.lastErrorMessage =
      requiredFuncMsg "avs_get_frame" ∧
    (get_api host0 schema0 initialState 10 0
      ["avs_get_frame", "avs_totally_made_up"]).snd.fst.lastErrorMessage ≠
      unknownFuncMsg "avs_totally_made_up" := by
  decide

/-- C7 (amended): a required list containing a name outside the schema always
makes the whole first-caller load fail with the handle closed and a null
return; the internal-contract-violation message naming the unknown symbol is
the one recorded when the loop reaches that name first, i.e. when every
required name listed before it is recognized and resolvable. -/
theorem claim_C7 :
    (∀ (host : Host) (schema : List String) (s : LoaderState) (rM rB : Int)
      (ns : List String) (u : String), Inv s → s.refCount = 0 → u ∈ ns →
      schema.contains u = false →
      (get_api host schema s rM rB ns).fst = none ∧
      (get_api host schema s rM rB ns).snd.fst.libraryHandle = none) ∧
    (∀ (host : Host) (schema : List String) (s : LoaderState) (rM rB : Int)
      (pre post : List String) (u : String), s.refCount = 0 →
      host.libAvailable = true →
      (host.symbolAddr "avs_check_version").isSome = true →
      (host.symbolAddr "avs_at_exit").isSome = true →
      recheckOk host host.symbolAddr rM rB = true →
      (∀ n ∈ pre, schema.contains n = true ∧ (host.symbolAddr n).isSome = true) →
      schema.contains u = false →
      (get_api host schema s rM rB (pre ++ u :: post)).fst = none ∧
      (get_api host schema s rM rB (pre ++ u :: post)).snd.fst.lastErrorMessage =
        unknownFuncMsg u ∧
      (get_api host schema s rM rB (pre ++ u :: post)).snd.fst.libraryHandle =
        none) := by
  constructor
  · intro host schema s rM rB ns u hInv h0 hu hc
    have hL := load_functions_fail_of_unknown host schema
      { s with refCount := s.refCount + 1 } rM rB ns u hu hc
    have hgf := get_api_fail_of_load_fail host schema s rM rB ns h0 hL
    have hff := get_api_fail_first_fields host schema s rM rB ns hInv h0 hgf.1
    exact ⟨hgf.1, hff.2.1⟩
  · intro host schema s rM rB pre post u h0 hlib hcv hae hver hpre hc
    have hL := load_functions_unknown_msg host schema
      { s with refCount := s.refCount + 1 } rM rB pre u post hlib hcv hae hver
      hpre hc
    have hgf := get_api_fail_of_load_fail host schema s rM rB
      (pre ++ u :: post) h0 hL.1
    exact ⟨hgf.1, hgf.2.2.1.trans hL.2.1, hgf.2.2.2.1.trans hL.2.2⟩

/-- C7 witness: with every earlier required name resolvable, the unknown name
is reached and the internal-contract message naming it is recorded, the
handle is closed and null is returned. -/
theorem claim_C7_witness :
    (get_api host0 schema0 initialState 10 0
      (["avs_add_function"] ++ "avs_totally_made_up" :: [])).fst = none ∧
    (get_api host0 schema0 initialState 10 0
      (["avs_add_function"] ++
        "avs_totally_made_up" :: [])).snd.fst.lastErrorMessage =
      unknownFuncMsg "avs_totally_made_up" ∧
    (get_api host0 schema0 initialState 10 0
      (["avs_add_function"] ++
        "avs_totally_made_up" :: [])).snd.fst.libraryHandle = none :=
  claim_C7.2 host0 schema0 initialState 10 0 ["avs_add_function"] []
    "avs_totally_made_up" rfl rfl (by decide) (by decide) (by decide)
    (by decide) (by decide)

/-- C8: a `get_api` call seeing a positive pre-increment count on an
uninitialized singleton releases the reference it just added and returns
null, making no shim call (no load attempt) and leaving the state exactly as
found. -/
theorem claim_C8 (host : Host) (schema : List String) (s : LoaderState)
    (rM rB : Int) (ns : List String) (hpos : 0 < s.refCount)
    (hinit : s.initialized = false) :
    get_api host schema s rM rB ns = (none, s, []) := by
  unfold get_api
  dsimp only
  rw [if_neg (by omega : ¬s.refCount = 0)]
  rw [if_neg (show ¬(({ s with refCount := s.refCount + 1 } :
      LoaderState).initialized = true) from by
    show ¬(s.initialized = true)
    rw [hinit]
    simp)]
  have hd := cleanup_callback_decrement { s with refCount := s.refCount + 1 }
    (by show ¬(s.refCount + 1 = 1); omega)
  simp only [Prod.mk.injEq]
  refine ⟨trivial, ?_, hd.2⟩
  rw [hd.1]
  apply LoaderState.ext
  · show s.refCount + 1 - 1 = s.refCount
    omega
  · rfl
  · rfl
  · rfl
  · rfl
  · rfl

/-- C8 witness: on a state holding one reference but never initialized, the
call fails and hands back the state unchanged with an empty trace. -/
theorem claim_C8_witness :
    0 < racingState.refCount ∧ racingState.initialized = false ∧
    get_api host0 schema0 racingState 10 0 [] = (none, racingState, []) :=
  ⟨by decide, rfl, claim_C8 host0 schema0 racingState 10 0 [] (by decide) rfl⟩

/-- C9: `get_last_error` always yields a string fitting the 300-byte static
buffer (at most 299 characters, the stored message truncated to fit); it is
the fixed fallback when no message is recorded and the recorded message
otherwise. -/
theorem claim_C9 (s : LoaderState) :
    (get_last_error s).length ≤ 299 ∧
    (s.lastErrorMessage = "" → get_last_error s = unknownErrorFallback) ∧
    (s.lastErrorMessage ≠ "" →
      get_last_error s = truncateTo 299 s.lastErrorMessage) := by
  refine ⟨?_, ?_, ?_⟩
  · unfold get_last_error
    by_cases h : s.lastErrorMessage ≠ ""
    · rw [if_pos h]
      show (s.lastErrorMessage.data.take 299).length ≤ 299
      rw [List.length_take]
      exact Nat.min_le_left _ _
    · rw [if_neg h]
      decide
  · intro h
    unfold get_last_error
    rw [if_neg (by simp [h])]
  · intro h
    unfold get_last_error
    rw [if_pos h]

/-- C9 witness: with a recorded message the truncated message is returned. -/
theorem claim_C9_witness :
    staleErrorState.lastErrorMessage ≠ "" ∧
    get_last_error staleErrorState =
      truncateTo 299 staleErrorState.lastErrorMessage :=
  ⟨by decide, (claim_C9 staleErrorState).2.2 (by decide)⟩

/-- C10: every successful load clears the stored message, so after any
successful `get_api` call `get_last_error` returns the fixed fallback, even
from a state still carrying an earlier failure message. -/
theorem claim_C10 (host : Host) (schema : List String) (s : LoaderState)
    (rM rB : Int) (ns : List String) (hInv : Inv s)
    (h : (get_api host schema s rM rB ns).fst.isSome = true) :
    get_last_error (get_api host schema s rM rB ns).snd.fst =
      unknownErrorFallback := by
  have hs := get_api_success_fields host schema s rM rB ns hInv h
  unfold get_last_error
  rw [if_neg (by simp [hs.2.2.2.2.1])]

/-- C10 witness: a successful call from a state carrying an old failure
message makes `get_last_error` return the fallback. -/
theorem claim_C10_witness :
    staleErrorState.lastErrorMessage ≠ "" ∧
    get_last_error
      (get_api host0 schema0 staleErrorState 10 0
        ["avs_add_function"]).snd.fst = unknownErrorFallback :=
  ⟨by decide,
    claim_C10 host0 schema0 staleErrorState 10 0 ["avs_add_function"]
      ⟨fun hi => absurd hi (by decide), fun _ => rfl, fun _ => rfl⟩ (by rfl)⟩

end AvsLoader
